import Mathlib

/-!
Verification of the UART NIC firmware (src/main/uart_nic.c) against its
natural-language specification.

The relevant C functions are shallowly embedded as executable Lean
definitions over byte lists (bytes are `Nat` values below 256; machine
counters wrap with an explicit `% 256` where the C type is `uint8_t`).
Stateful code is modelled by explicit state passing: each handler takes the
process-wide link-health state and returns the updated state together with
its observable effects (scan requests issued, frames emitted, bytes
consumed from the serial transport, buffers enqueued).
-/

/-! ## Frame codec: the intron (resync token) scanner, from `wait_for_intron` -/

/-- Default resync token, from the C global `intron`
(`{'U', 'N', 0, 1, 2, 3, 4, 5}`). -/
def intron : List Nat := [85, 78, 0, 1, 2, 3, 4, 5]

/-- One step of the match cursor, from the loop body of `wait_for_intron`:
a byte equal to the token byte at the cursor advances the cursor, any other
byte resets it to zero (the byte is not re-evaluated against position 0). -/
def scanStep (tok : List Nat) (pos c : Nat) : Nat :=
  if c = tok.getD pos 0 then pos + 1 else 0

/-- Cursor value after feeding a whole byte list through `scanStep`. -/
def scanPos (tok : List Nat) : Nat → List Nat → Nat
  | pos, [] => pos
  | pos, c :: cs => scanPos tok (scanStep tok pos c) cs

/-- The scanner of `wait_for_intron`, started at cursor `pos`: consumes the
stream byte by byte and returns `some n` when the cursor reaches the token
length after consuming exactly `n` bytes, `none` when the stream runs out
first (the C loop would stay blocked waiting for more bytes). -/
def scanFrom (tok : List Nat) : Nat → List Nat → Option Nat
  | _, [] => none
  | pos, c :: cs =>
    let p := scanStep tok pos c
    if p = tok.length then some 1
    else Option.map (· + 1) (scanFrom tok p cs)

/-- The scanner of `wait_for_intron` starts with the cursor at zero. -/
def wait_for_intron (tok s : List Nat) : Option Nat := scanFrom tok 0 s

/-- The token occurs in `s` as a contiguous subsequence starting at `i`. -/
def tokenAt (tok s : List Nat) (i : Nat) : Prop :=
  (s.drop i).take tok.length = tok

instance (tok s : List Nat) (i : Nat) : Decidable (tokenAt tok s i) := by
  unfold tokenAt; infer_instance

/-! ### Scanner lemmas -/

theorem drop_append_len (A B : List Nat) (k : Nat) :
    (A ++ B).drop (A.length + k) = B.drop k := by
  induction A with
  | nil => simp
  | cons a As ih => simp [Nat.succ_add, ih]

/-- Soundness of the scanner: whenever it terminates after consuming `n`
bytes from cursor `pos`, the virtual prefix `tok.take pos` followed by the
consumed bytes ends exactly with the token. -/
theorem scanFrom_sound (tok : List Nat) :
    ∀ (s : List Nat) (pos n : Nat), pos < tok.length →
      scanFrom tok pos s = some n →
      1 ≤ n ∧ n ≤ s.length ∧ tok.length ≤ pos + n ∧
      (tok.take pos ++ s.take n).drop (pos + n - tok.length) = tok := by
  intro s
  induction s with
  | nil => intro pos n _ h; simp [scanFrom] at h
  | cons c cs ih =>
    intro pos n hpos h
    rw [scanFrom] at h
    by_cases hp : scanStep tok pos c = tok.length
    · simp [hp] at h
      subst h
      have hmatch : c = tok.getD pos 0 := by
        by_contra hc
        unfold scanStep at hp
        rw [if_neg hc] at hp
        omega
      have hlen : pos + 1 = tok.length := by
        unfold scanStep at hp
        rw [if_pos hmatch] at hp
        exact hp
      have hcg : c = tok[pos] := by
        rw [hmatch, List.getD_eq_getElem?_getD, List.getElem?_eq_getElem hpos]
        rfl
      have htake : tok.take (pos + 1) = tok.take pos ++ [c] := by
        rw [List.take_succ, List.getElem?_eq_getElem hpos, hcg]
        rfl
      refine ⟨le_refl 1, by simp, by omega, ?_⟩
      have h0 : pos + 1 - tok.length = 0 := by omega
      rw [List.take_succ_cons, List.take_zero, h0, List.drop_zero, ← htake, hlen,
        List.take_length]
    · simp only [if_neg hp] at h
      cases hm : scanFrom tok (scanStep tok pos c) cs with
      | none => rw [hm] at h; simp at h
      | some m =>
        rw [hm] at h
        simp only [Option.map_some', Option.some.injEq] at h
        subst h
        have hplt : scanStep tok pos c < tok.length := by
          unfold scanStep at hp ⊢
          by_cases hc : c = tok.getD pos 0
          · rw [if_pos hc] at hp ⊢
            omega
          · rw [if_neg hc]
            omega
        obtain ⟨h1, h2, h3, h4⟩ := ih (scanStep tok pos c) m hplt hm
        refine ⟨by omega, by simpa using h2, ?_, ?_⟩
        · unfold scanStep at h3
          by_cases hc : c = tok.getD pos 0
          · rw [if_pos hc] at h3; omega
          · rw [if_neg hc] at h3; omega
        · by_cases hc : c = tok.getD pos 0
          · -- matched byte: cursor advanced to pos + 1
            have hstep : scanStep tok pos c = pos + 1 := by
              unfold scanStep; rw [if_pos hc]
            rw [hstep] at h4
            have hcg : c = tok[pos] := by
              rw [hc, List.getD_eq_getElem?_getD, List.getElem?_eq_getElem hpos]
              rfl
            have htake : tok.take (pos + 1) = tok.take pos ++ [c] := by
              rw [List.take_succ, List.getElem?_eq_getElem hpos, hcg]
              rfl
            rw [htake] at h4
            rw [List.take_succ_cons]
            calc (tok.take pos ++ c :: cs.take m).drop (pos + (m + 1) - tok.length)
                = ((tok.take pos ++ [c]) ++ cs.take m).drop (pos + 1 + m - tok.length) := by
                  simp only [List.append_assoc, List.singleton_append]
                  congr 1
                  omega
              _ = tok := h4
          · -- mismatched byte: cursor reset to zero
            have hstep : scanStep tok pos c = 0 := by
              unfold scanStep; rw [if_neg hc]
            rw [hstep, Nat.zero_add] at h4
            simp only [List.take_zero, List.nil_append] at h4
            have hml : tok.length ≤ m := by
              unfold scanStep at h3
              rw [if_neg hc] at h3
              omega
            rw [List.take_succ_cons]
            have hlenA : (tok.take pos).length = pos := by
              rw [List.length_take]
              omega
            calc (tok.take pos ++ c :: cs.take m).drop (pos + (m + 1) - tok.length)
                = (tok.take pos ++ c :: cs.take m).drop
                    ((tok.take pos).length + (1 + (m - tok.length))) := by
                  rw [hlenA]; congr 1; omega
              _ = (c :: cs.take m).drop (1 + (m - tok.length)) := by
                  rw [drop_append_len]
              _ = (cs.take m).drop (m - tok.length) := by
                  rw [Nat.add_comm 1 (m - tok.length)]
                  exact List.drop_succ_cons
              _ = tok := h4

/-- Feeding the scanner the tail of the token from the matching cursor
position completes the match, consuming exactly the remaining token bytes. -/
theorem scanFrom_token_aux (tok r : List Nat) :
    ∀ (n pos : Nat), pos < tok.length → tok.length - pos = n →
      scanFrom tok pos (tok.drop pos ++ r) = some n := by
  intro n
  induction n with
  | zero => intro pos h1 h2; omega
  | succ k ih =>
    intro pos h1 h2
    have hdrop : tok.drop pos = tok[pos] :: tok.drop (pos + 1) :=
      (List.getElem_cons_drop tok pos h1).symm
    rw [hdrop]
    have hgd : tok.getD pos 0 = tok[pos] := by
      rw [List.getD_eq_getElem?_getD, List.getElem?_eq_getElem h1]
      rfl
    have hstep : scanStep tok pos (tok[pos]) = pos + 1 := by
      unfold scanStep
      rw [if_pos hgd.symm]
    by_cases he : pos + 1 = tok.length
    · have hk : k = 0 := by omega
      rw [List.cons_append, scanFrom]
      simp only [hstep, if_pos he, hk]
    · have hlt : pos + 1 < tok.length := by omega
      have hrec := ih (pos + 1) hlt (by omega)
      rw [List.cons_append, scanFrom]
      simp only [hstep, if_neg he, hrec, Option.map_some']

/-- Scanning across an append: if the scanner does not complete inside `g`,
it continues into `t` from the cursor position `g` leaves behind, with all
of `g` counted as consumed. -/
theorem scanFrom_append_none (tok : List Nat) :
    ∀ (g t : List Nat) (pos : Nat), scanFrom tok pos g = none →
      scanFrom tok pos (g ++ t) =
        Option.map (· + g.length) (scanFrom tok (scanPos tok pos g) t) := by
  intro g
  induction g with
  | nil =>
    intro t pos _
    simp only [List.nil_append, scanPos, List.length_nil]
    cases scanFrom tok pos t <;> simp
  | cons c gs ih =>
    intro t pos hnone
    rw [scanFrom] at hnone
    by_cases hp : scanStep tok pos c = tok.length
    · simp [hp] at hnone
    · simp only [if_neg hp] at hnone
      have hgs : scanFrom tok (scanStep tok pos c) gs = none := by
        cases hg : scanFrom tok (scanStep tok pos c) gs with
        | none => rfl
        | some m => rw [hg] at hnone; simp at hnone
      rw [List.cons_append, scanFrom]
      simp only [if_neg hp, ih t (scanStep tok pos c) hgs]
      show Option.map (· + 1)
          (Option.map (· + gs.length) (scanFrom tok (scanPos tok (scanStep tok pos c) gs) t)) =
        Option.map (· + (gs.length + 1)) (scanFrom tok (scanPos tok pos (c :: gs)) t)
      have hsp : scanPos tok pos (c :: gs) = scanPos tok (scanStep tok pos c) gs := rfl
      rw [hsp]
      cases scanFrom tok (scanPos tok (scanStep tok pos c) gs) t <;>
        simp [Nat.add_assoc]

/-! ## Claim C2: termination of the resync scanner at token occurrences -/

/-- C2 (counterexample): the claim "for every input byte stream that
contains the current resync token as a contiguous subsequence, the decode
scanner terminates exactly at the first occurrence of the token" is false.
The stream `'U' 'U' 'N' 0 1 2 3 4 5` contains the default token at offset 1,
yet the scanner consumes the whole stream without terminating: the second
`'U'` breaks the partial match and is not re-evaluated against position 0,
so the overlapping occurrence is missed. -/
theorem C2_counterexample :
    tokenAt intron [85, 85, 78, 0, 1, 2, 3, 4, 5] 1
    ∧ wait_for_intron intron [85, 85, 78, 0, 1, 2, 3, 4, 5] = none := by
  decide

/-- C2 (amended): the scanner never rewinds already-consumed bytes (it
consumes each byte exactly once, by construction of `scanFrom`), it
terminates only at occurrences of the token (whenever it stops after `n`
bytes, the consumed bytes end exactly with the token), and it terminates
exactly at the first occurrence of the token whenever the match cursor is
at zero immediately before that occurrence begins (in particular whenever
the preceding bytes leave no partial match); occurrences overlapping a
broken partial match can be missed. -/
theorem C2_first_occurrence (tok g r s : List Nat) (n : Nat)
    (htok : tok ≠ [])
    (hg1 : scanFrom tok 0 g = none) (hg2 : scanPos tok 0 g = 0) :
    wait_for_intron tok (g ++ (tok ++ r)) = some (g.length + tok.length)
    ∧ (wait_for_intron tok s = some n →
        tok.length ≤ n ∧ n ≤ s.length ∧ (s.take n).drop (n - tok.length) = tok) := by
  have hlen : 0 < tok.length := List.length_pos.mpr htok
  constructor
  · unfold wait_for_intron
    rw [scanFrom_append_none tok g (tok ++ r) 0 hg1, hg2]
    have htok' := scanFrom_token_aux tok r tok.length 0 hlen (by omega)
    rw [List.drop_zero] at htok'
    rw [htok']
    simp [Nat.add_comm]
  · intro hs
    obtain ⟨h1, h2, h3, h4⟩ := scanFrom_sound tok s 0 n hlen hs
    refine ⟨by omega, h2, ?_⟩
    simpa using h4

/-- C2 (witness): concrete instantiation of `C2_first_occurrence`: a
mismatching byte `0`, then the default token, then trailing byte `2`; the
scanner stops after exactly 9 bytes, at the end of the first occurrence. -/
theorem C2_first_occurrence_witness :
    scanFrom intron 0 [0] = none
    ∧ scanPos intron 0 [0] = 0
    ∧ wait_for_intron intron ([0] ++ (intron ++ [2])) = some 9
    ∧ (intron.length ≤ 8 ∧ 8 ≤ intron.length
        ∧ (intron.take 8).drop (8 - intron.length) = intron) := by
  have h := C2_first_occurrence intron [0] [2] intron 8
    (by decide) (by decide) (by decide)
  refine ⟨by decide, by decide, ?_, ?_⟩
  · have h1 := h.1
    simpa [intron] using h1
  · exact h.2 (by decide)

/-! ## Egress pipeline: `read_packet_message` (Packet message handler)

The handler reads a 4-byte little-endian length from the serial transport,
rejects lengths above 2000, otherwise allocates a `wifi_send_buff` plus its
payload storage, reads the payload and enqueues it on the egress queue.
Allocation and enqueue outcomes are environment inputs, modelled as Boolean
parameters. The result records how many bytes the handler consumed from the
transport after the type byte, and the payload enqueued, if any. -/

/-- Little-endian decoding of the 4 length bytes, as reading the bytes into
a `uint32_t` does on this target. -/
def le32 (bs : List Nat) : Nat :=
  bs.getD 0 0 + 256 * (bs.getD 1 0 + 256 * (bs.getD 2 0 + 256 * bs.getD 3 0))

structure PacketMsgEffect where
  consumed : Nat
  enqueued : Option (List Nat)
  size_rejected : Bool
deriving Repr, DecidableEq

/-- Embedding of `read_packet_message` from src/main/uart_nic.c. -/
def read_packet_message (allocBuffOk allocDataOk enqueueOk : Bool)
    (stream : List Nat) : PacketMsgEffect :=
  let size := le32 (stream.take 4)
  if size > 2000 then
    { consumed := 4, enqueued := none, size_rejected := true }
  else if allocBuffOk = false then
    { consumed := 4 + size, enqueued := none, size_rejected := false }
  else if allocDataOk = false then
    { consumed := 4 + size, enqueued := none, size_rejected := false }
  else
    let payload := (stream.drop 4).take size
    if enqueueOk then
      { consumed := 4 + size, enqueued := some payload, size_rejected := false }
    else
      { consumed := 4 + size, enqueued := none, size_rejected := false }

/-- C1 (code bug evidence): a Packet message declaring length 2001 (bytes
`D1 07 00 00`) is rejected as oversized, but the handler consumes only the
4 length bytes and returns immediately: the 2001 declared payload bytes are
left in the transport, so the token scanner is not kept aligned. The spec
mandates draining exactly the declared `length` bytes in this case and
itself flags the non-draining early return as a latent defect. -/
theorem C1_oversize_no_drain :
    le32 (([209, 7, 0, 0] ++ List.replicate 2001 7).take 4) = 2001
    ∧ (read_packet_message true true true
        ([209, 7, 0, 0] ++ List.replicate 2001 7)).size_rejected = true
    ∧ (read_packet_message true true true
        ([209, 7, 0, 0] ++ List.replicate 2001 7)).consumed = 4 := by
  refine ⟨rfl, rfl, rfl⟩

/-- C8: when allocation of the egress `wifi_send_buff` or of its payload
storage fails while handling a Packet message of admissible length, the
handler consumes exactly `4 + length` bytes from the transport (the length
field plus the declared payload, drained byte by byte), enqueues nothing,
and the oversize rejection path is not taken: framing stays aligned. -/
theorem C8_alloc_failure_drains (allocBuffOk allocDataOk enqueueOk : Bool)
    (stream : List Nat)
    (hsize : le32 (stream.take 4) ≤ 2000)
    (halloc : allocBuffOk = false ∨ allocDataOk = false) :
    read_packet_message allocBuffOk allocDataOk enqueueOk stream =
      { consumed := 4 + le32 (stream.take 4), enqueued := none,
        size_rejected := false } := by
  unfold read_packet_message
  rw [if_neg (by omega)]
  rcases halloc with h | h
  · rw [h]
    simp
  · rw [h]
    cases allocBuffOk <;> simp

/-- C8 (witness): a Packet message declaring length 5 under a failed buffer
allocation consumes exactly 9 bytes and enqueues nothing. -/
theorem C8_alloc_failure_drains_witness :
    read_packet_message false true true [5, 0, 0, 0, 1, 2, 3, 4, 5] =
      { consumed := 9, enqueued := none, size_rejected := false } := by
  have h := C8_alloc_failure_drains false true true [5, 0, 0, 0, 1, 2, 3, 4, 5]
    (by decide) (Or.inl rfl)
  simpa [le32] using h

/-! ## Link health monitor state

The process-wide link-health variables of src/main/uart_nic.c:
`associated`, `last_inbound_seen`, `beacon_quirk`, `probe_in_progress` and
`probe_retry_count` (a `uint8_t`, so increments wrap modulo 256). -/

def INACTIVE_PACKET_SECONDS : Nat := 5

def probe_max_reties : Nat := 3

structure LinkState where
  associated : Bool
  last_inbound_seen : Nat
  beacon_quirk : Bool
  probe_in_progress : Bool
  probe_retry_count : Nat
deriving Repr, DecidableEq

/-- Elapsed time computation of `check_online_status`: a wrapped clock
(`now < last`) counts only the part after the wrap, i.e. `now` itself. -/
def elapsed_since (now last : Nat) : Nat :=
  if now ≥ last then now - last else now

structure CheckEffect where
  state : LinkState
  scans : Nat
deriving Repr, DecidableEq

/-- Embedding of `check_online_status`, the periodic link-health check run
once per egress read-loop iteration (from `read_message`). `scans` counts
the `probe_run` scan requests issued. -/
def check_online_status (now : Nat) (s : LinkState) : CheckEffect :=
  if !s.associated || s.probe_in_progress then
    { state := s, scans := 0 }
  else
    let elapsed := elapsed_since now s.last_inbound_seen
    if elapsed > INACTIVE_PACKET_SECONDS then
      { state := { s with probe_in_progress := true, probe_retry_count := 0 },
        scans := 1 }
    else
      { state := s, scans := 0 }

/-! ## Scan-complete handling (the `WIFI_EVENT_SCAN_DONE` branch of
`event_handler`) -/

/-- Access-point record: the `bssid` and `ssid` byte arrays of a
`wifi_ap_record_t` (6 and 33 bytes respectively on this SDK). -/
structure ApRecord where
  bssid : List Nat
  ssid : List Nat
deriving Repr, DecidableEq

/-- Byte-wise equality of the first `n` array entries, as `memcmp(a, b, n)
== 0` computes it (absent entries read as 0). -/
def memcmp_eq (a b : List Nat) (n : Nat) : Bool :=
  (List.range n).all (fun i => a.getD i 0 == b.getD i 0)

/-- Equality as `strncmp(a, b, n) == 0` computes it on NUL-terminated byte
arrays: compare from index `i`, stop at the first differing byte (unequal)
or at a common NUL byte (equal), comparing at most `n` bytes. -/
def strncmp_eq (a b : List Nat) : Nat → Nat → Bool
  | _, 0 => true
  | i, n + 1 =>
    let x := a.getD i 0
    let y := b.getD i 0
    if x ≠ y then false
    else if x = 0 then true
    else strncmp_eq a b (i + 1) n

/-- BSSID comparison of the first scan-result pass:
`memcmp(ap_info.bssid, aps[i].bssid, 6) == 0`. -/
def bssid_match (apInfo r : ApRecord) : Bool :=
  memcmp_eq apInfo.bssid r.bssid 6

/-- SSID comparison of the second scan-result pass: both SSIDs non-empty
(first byte not NUL) and `strncmp(ap_info.ssid, aps[i].ssid, 32) == 0`. -/
def ssid_match (apInfo r : ApRecord) : Bool :=
  apInfo.ssid.getD 0 0 != 0 && r.ssid.getD 0 0 != 0
    && strncmp_eq apInfo.ssid r.ssid 0 32

/-- Modelled from the spec's words, for comparison with `ssid_match`: "an
exact (case-sensitive, fixed 32-byte field) SSID match". -/
def spec_ssid_eq32 (apInfo r : ApRecord) : Bool :=
  apInfo.ssid.getD 0 0 != 0 && r.ssid.getD 0 0 != 0
    && apInfo.ssid.take 32 == r.ssid.take 32

/-- First pass of the scan-done handler: requires a successful scan with a
non-zero result count, and some scan record whose BSSID equals the
associated access point's BSSID. -/
def scan_found_bssid (statusOk : Bool) (apInfo : ApRecord)
    (aps : List ApRecord) : Bool :=
  statusOk && !aps.isEmpty && aps.any (fun r => bssid_match apInfo r)

/-- Second pass of the scan-done handler (reached only with `beacon_quirk`
still set and no BSSID match): some scan record with an SSID match. -/
def scan_found_ssid (statusOk : Bool) (apInfo : ApRecord)
    (aps : List ApRecord) : Bool :=
  statusOk && !aps.isEmpty && aps.any (fun r => ssid_match apInfo r)

/-- The `found` flag at the end of both passes, given the `beacon_quirk`
value `bq` at entry. -/
def scan_found (statusOk : Bool) (apInfo : ApRecord) (aps : List ApRecord)
    (bq : Bool) : Bool :=
  scan_found_bssid statusOk apInfo aps
    || (bq && scan_found_ssid statusOk apInfo aps)

structure ScanDoneEffect where
  state : LinkState
  scans : Nat
  linkdown_sent : Bool
deriving Repr, DecidableEq

/-- Embedding of the `WIFI_EVENT_SCAN_DONE` branch of `event_handler`:
`statusOk` is `!scan_data->status`, `apInfo` the record returned by
`esp_wifi_sta_get_ap_info`, `aps` the fetched scan records, `now` the
current whole-second clock. `scans` counts `probe_run` calls and
`linkdown_sent` records a `send_link_status(0)` emission. -/
def scan_done (statusOk : Bool) (apInfo : ApRecord) (aps : List ApRecord)
    (now : Nat) (s : LinkState) : ScanDoneEffect :=
  let bssidFound := scan_found_bssid statusOk apInfo aps
  let bq := if bssidFound then false else s.beacon_quirk
  let found := scan_found statusOk apInfo aps s.beacon_quirk
  if found then
    { state :=
        { s with
          beacon_quirk := bq
          probe_in_progress := false
          last_inbound_seen := now }
      scans := 0
      linkdown_sent := false }
  else if s.probe_retry_count < probe_max_reties then
    { state :=
        { s with
          beacon_quirk := bq
          probe_retry_count := (s.probe_retry_count + 1) % 256 }
      scans := 1
      linkdown_sent := false }
  else
    { state :=
        { s with
          beacon_quirk := bq
          probe_retry_count := (s.probe_retry_count + 1) % 256
          probe_in_progress := false }
      scans := 0
      linkdown_sent := true }

/-- A link-health state as it looks right after `check_online_status`
started a probe: associated, probing, retry counter reset. -/
def probeStart : LinkState :=
  { associated := true, last_inbound_seen := 0, beacon_quirk := true,
    probe_in_progress := true, probe_retry_count := 0 }

/-- Access-point record used by scan events whose content is irrelevant
(failed scans). -/
def apEmpty : ApRecord := ⟨[0, 0, 0, 0, 0, 0], [0]⟩

/-- A concrete associated, non-probing state with stale inbound traffic. -/
def idleAssoc : LinkState := ⟨true, 0, true, false, 2⟩

/-- C4: the periodic check probes exactly when the device is associated,
not already probing, and more than `INACTIVE_PACKET_SECONDS = 5` seconds
elapsed since the last inbound traffic (a wrapped clock `now < last`
counting as `elapsed = now`); in that case it sets the probing flag, resets
the retry counter to 0 and issues exactly one scan request; in every other
case it changes nothing and issues no scan. -/
theorem C4_check_online_status (now : Nat) (s : LinkState) :
    (s.associated = true → s.probe_in_progress = false →
      elapsed_since now s.last_inbound_seen > INACTIVE_PACKET_SECONDS →
      check_online_status now s =
        { state := { s with probe_in_progress := true, probe_retry_count := 0 }
          scans := 1 })
    ∧ (s.associated = false ∨ s.probe_in_progress = true ∨
        elapsed_since now s.last_inbound_seen ≤ INACTIVE_PACKET_SECONDS →
      check_online_status now s = { state := s, scans := 0 }) := by
  constructor
  · intro ha hp he
    simp [check_online_status, ha, hp, he]
  · rintro (ha | hp | he)
    · simp [check_online_status, ha]
    · simp [check_online_status, hp]
    · cases hsa : s.associated <;> cases hsp : s.probe_in_progress <;>
        simp [check_online_status, hsa, hsp, Nat.not_lt.mpr he]

/-- C4 (witness): a stale associated idle state at time 10 starts exactly
one probe. -/
theorem C4_check_online_status_witness :
    check_online_status 10 idleAssoc =
      { state := { idleAssoc with probe_in_progress := true, probe_retry_count := 0 }
        scans := 1 } := by
  exact (C4_check_online_status 10 idleAssoc).1 rfl rfl (by decide)

/-- C3 (counterexample): the claim "three consecutive non-matching
scan-complete events cause a LinkStatus(down) frame to be emitted and the
probe loop to halt, with no fourth scan request issued" is false: starting
a fresh probe (retry counter 0), the third consecutive non-matching
scan-complete event still issues another (fourth) scan request, emits no
LinkStatus(down), and leaves the probing flag set, because
`probe_retry_count++ < probe_max_reties` compares the counter before
incrementing. -/
theorem C3_counterexample :
    (let e1 := scan_done false apEmpty [] 0 probeStart
     let e2 := scan_done false apEmpty [] 0 e1.state
     let e3 := scan_done false apEmpty [] 0 e2.state
     e3.scans = 1 ∧ e3.linkdown_sent = false
       ∧ e3.state.probe_in_progress = true) := by
  decide

/-- C3 (amended): with the retry limit `probe_max_reties = 3` compared
against the counter before it is incremented, a fresh probe (retry counter
0) tolerates three consecutive non-matching scan-complete events, each of
which issues one further scan request (the initial scan plus three
retries); the fourth consecutive non-matching event emits
`LinkStatus(down)`, issues no further scan, and halts the probe loop by
clearing the probing flag. -/
theorem C3_retry_bound (s : LinkState)
    (o1 o2 o3 o4 : Bool) (a1 a2 a3 a4 : ApRecord)
    (l1 l2 l3 l4 : List ApRecord) (n1 n2 n3 n4 : Nat)
    (hretry : s.probe_retry_count = 0) (hprobe : s.probe_in_progress = true)
    (h1 : scan_found o1 a1 l1 s.beacon_quirk = false)
    (h2 : scan_found o2 a2 l2 s.beacon_quirk = false)
    (h3 : scan_found o3 a3 l3 s.beacon_quirk = false)
    (h4 : scan_found o4 a4 l4 s.beacon_quirk = false) :
    (let e1 := scan_done o1 a1 l1 n1 s
     let e2 := scan_done o2 a2 l2 n2 e1.state
     let e3 := scan_done o3 a3 l3 n3 e2.state
     let e4 := scan_done o4 a4 l4 n4 e3.state
     (e1.scans = 1 ∧ e1.linkdown_sent = false ∧ e1.state.probe_in_progress = true)
     ∧ (e2.scans = 1 ∧ e2.linkdown_sent = false ∧ e2.state.probe_in_progress = true)
     ∧ (e3.scans = 1 ∧ e3.linkdown_sent = false ∧ e3.state.probe_in_progress = true)
     ∧ (e4.scans = 0 ∧ e4.linkdown_sent = true
         ∧ e4.state.probe_in_progress = false)) := by
  have hb1 : scan_found_bssid o1 a1 l1 = false := by
    have h' := h1
    unfold scan_found at h'
    exact (Bool.or_eq_false_iff.mp h').1
  have hb2 : scan_found_bssid o2 a2 l2 = false := by
    have h' := h2
    unfold scan_found at h'
    exact (Bool.or_eq_false_iff.mp h').1
  have hb3 : scan_found_bssid o3 a3 l3 = false := by
    have h' := h3
    unfold scan_found at h'
    exact (Bool.or_eq_false_iff.mp h').1
  have hb4 : scan_found_bssid o4 a4 l4 = false := by
    have h' := h4
    unfold scan_found at h'
    exact (Bool.or_eq_false_iff.mp h').1
  have he1 : scan_done o1 a1 l1 n1 s =
      { state := { s with probe_retry_count := 1 }
        scans := 1
        linkdown_sent := false } := by
    simp [scan_done, h1, hb1, hretry, probe_max_reties]
  have he2 : scan_done o2 a2 l2 n2 { s with probe_retry_count := 1 } =
      { state := { s with probe_retry_count := 2 }
        scans := 1
        linkdown_sent := false } := by
    simp [scan_done, h2, hb2, probe_max_reties]
  have he3 : scan_done o3 a3 l3 n3 { s with probe_retry_count := 2 } =
      { state := { s with probe_retry_count := 3 }
        scans := 1
        linkdown_sent := false } := by
    simp [scan_done, h3, hb3, probe_max_reties]
  have he4 : scan_done o4 a4 l4 n4 { s with probe_retry_count := 3 } =
      { state := { s with probe_retry_count := 4, probe_in_progress := false }
        scans := 0
        linkdown_sent := true } := by
    simp [scan_done, h4, hb4, probe_max_reties]
  simp only [he1, he2, he3, he4]
  simp [hprobe]

/-- C3 (witness): concrete run of `C3_retry_bound` from a fresh probe with
four failed scans. -/
theorem C3_retry_bound_witness :
    (let e1 := scan_done false apEmpty [] 0 probeStart
     let e2 := scan_done false apEmpty [] 0 e1.state
     let e3 := scan_done false apEmpty [] 0 e2.state
     let e4 := scan_done false apEmpty [] 0 e3.state
     (e1.scans = 1 ∧ e1.linkdown_sent = false ∧ e1.state.probe_in_progress = true)
     ∧ (e2.scans = 1 ∧ e2.linkdown_sent = false ∧ e2.state.probe_in_progress = true)
     ∧ (e3.scans = 1 ∧ e3.linkdown_sent = false ∧ e3.state.probe_in_progress = true)
     ∧ (e4.scans = 0 ∧ e4.linkdown_sent = true
         ∧ e4.state.probe_in_progress = false)) := by
  exact C3_retry_bound probeStart false false false false apEmpty apEmpty apEmpty
    apEmpty [] [] [] [] 0 0 0 0 rfl rfl (by decide) (by decide) (by decide) (by decide)

/-- Associated access point record with SSID bytes `'A', NUL, 'B'` in its
33-byte SSID field: non-empty as a C string, but differing from
`apScanQuirk` within the fixed 32-byte field. -/
def apInfoQuirk : ApRecord :=
  ⟨[1, 2, 3, 4, 5, 6], [65, 0, 66] ++ List.replicate 30 0⟩

/-- Scan record with a different BSSID and SSID bytes `'A', NUL, 'C'`. -/
def apScanQuirk : ApRecord :=
  ⟨[9, 9, 9, 9, 9, 9], [65, 0, 67] ++ List.replicate 30 0⟩

/-- C5 (counterexample): the claim that the second pass requires "an exact
32-byte SSID match" is false: the code compares SSIDs with
`strncmp(..., 32)`, which stops at the first common NUL byte. For the
associated record `apInfoQuirk` (SSID bytes `'A', NUL, 'B', ...`) and a
scan result `apScanQuirk` (different BSSID, SSID bytes `'A', NUL, 'C',
...`), the fixed 32-byte SSID fields differ, yet the handler treats the
access point as present: it leaves probing, updates `last_inbound_seen`,
and issues no retry scan. -/
theorem C5_counterexample :
    scan_found_bssid true apInfoQuirk [apScanQuirk] = false
    ∧ spec_ssid_eq32 apInfoQuirk apScanQuirk = false
    ∧ (scan_done true apInfoQuirk [apScanQuirk] 7 probeStart).state.probe_in_progress
        = false
    ∧ (scan_done true apInfoQuirk [apScanQuirk] 7 probeStart).state.last_inbound_seen
        = 7
    ∧ (scan_done true apInfoQuirk [apScanQuirk] 7 probeStart).scans = 0 := by
  decide

/-- C5 (amended): on a successful scan-complete event with results, the
handler first searches for an exact BSSID match against the
currently-associated access point record; if one is found it clears
`beacon_quirk`, updates `last_inbound_seen`, and leaves probing. Only when
no BSSID match is found and `beacon_quirk` is still set does it run a
second pass requiring an SSID match between entries whose SSIDs are
non-empty on both sides, where SSIDs are compared as NUL-terminated strings
over at most 32 bytes (`strncmp`), not as full 32-byte fields; an SSID
match leaves probing and updates `last_inbound_seen` but does not clear
`beacon_quirk`. With `beacon_quirk` clear, no SSID pass runs and a missing
BSSID match falls through to the retry logic. -/
theorem C5_scan_match (ok : Bool) (apInfo : ApRecord) (aps : List ApRecord)
    (now : Nat) (s : LinkState) :
    (scan_found_bssid ok apInfo aps = true →
      scan_done ok apInfo aps now s =
        { state :=
            { s with
              beacon_quirk := false
              probe_in_progress := false
              last_inbound_seen := now }
          scans := 0
          linkdown_sent := false })
    ∧ (scan_found_bssid ok apInfo aps = false → s.beacon_quirk = true →
        scan_found_ssid ok apInfo aps = true →
      scan_done ok apInfo aps now s =
        { state := { s with probe_in_progress := false, last_inbound_seen := now }
          scans := 0
          linkdown_sent := false })
    ∧ (scan_found_bssid ok apInfo aps = false → s.beacon_quirk = false →
      scan_done ok apInfo aps now s =
        (if s.probe_retry_count < probe_max_reties then
          { state := { s with probe_retry_count := (s.probe_retry_count + 1) % 256 }
            scans := 1
            linkdown_sent := false }
         else
          { state :=
              { s with
                probe_retry_count := (s.probe_retry_count + 1) % 256
                probe_in_progress := false }
            scans := 0
            linkdown_sent := true })) := by
  refine ⟨?_, ?_, ?_⟩
  · intro hb
    simp [scan_done, scan_found, hb]
  · intro hb hq hs
    simp [scan_done, scan_found, hb, hq, hs]
  · intro hb hq
    have hnf : scan_found ok apInfo aps s.beacon_quirk = false := by
      unfold scan_found
      rw [hb, hq]
      rfl
    by_cases hr : s.probe_retry_count < probe_max_reties
    · rw [if_pos hr]
      simp [scan_done, hnf, hb, hr]
    · rw [if_neg hr]
      simp [scan_done, hnf, hb, hr]

/-- Scan record equal to the associated access point (same BSSID). -/
def apSame : ApRecord := ⟨[1, 2, 3, 4, 5, 6], 65 :: List.replicate 32 0⟩

/-- C5 (witness): a BSSID match clears `beacon_quirk` and leaves probing;
an SSID-only match (on the quirk records) leaves probing without touching
`beacon_quirk`. -/
theorem C5_scan_match_witness :
    scan_done true apSame [apSame] 9 probeStart =
      { state :=
          { probeStart with
            beacon_quirk := false
            probe_in_progress := false
            last_inbound_seen := 9 }
        scans := 0
        linkdown_sent := false }
    ∧ scan_done true apInfoQuirk [apScanQuirk] 11 probeStart =
      { state :=
          { probeStart with probe_in_progress := false, last_inbound_seen := 11 }
        scans := 0
        linkdown_sent := false } := by
  constructor
  · exact (C5_scan_match true apSame [apSame] 9 probeStart).1 (by decide)
  · exact (C5_scan_match true apInfoQuirk [apScanQuirk] 11 probeStart).2.1
      (by decide) rfl (by decide)

/-- Exhausted probing state: associated, probing, retry counter at the
limit, stale inbound traffic. -/
def probeExhausted : LinkState := ⟨true, 0, true, true, 3⟩

/-- C9: when probe retries are exhausted (retry counter at or above the
limit) and one more non-matching scan-complete event arrives, the handler
emits `LinkStatus(down)` and clears the probing flag, but leaves
`associated` and `last_inbound_seen` untouched; hence on any later periodic
check where more than 5 seconds have elapsed since `last_inbound_seen`, the
precondition of `check_online_status` holds again and a fresh probe cycle
starts (probing set, retry counter reset to 0, exactly one scan issued):
the probe halt is not permanent. -/
theorem C9_probe_restart (ok : Bool) (apInfo : ApRecord) (aps : List ApRecord)
    (now1 now2 : Nat) (s : LinkState)
    (hassoc : s.associated = true)
    (hretry : probe_max_reties ≤ s.probe_retry_count)
    (hnom : scan_found ok apInfo aps s.beacon_quirk = false)
    (helapsed : elapsed_since now2 s.last_inbound_seen > INACTIVE_PACKET_SECONDS) :
    (scan_done ok apInfo aps now1 s).linkdown_sent = true
    ∧ (scan_done ok apInfo aps now1 s).scans = 0
    ∧ (scan_done ok apInfo aps now1 s).state.probe_in_progress = false
    ∧ (scan_done ok apInfo aps now1 s).state.associated = s.associated
    ∧ (scan_done ok apInfo aps now1 s).state.last_inbound_seen = s.last_inbound_seen
    ∧ (check_online_status now2 (scan_done ok apInfo aps now1 s).state).scans = 1
    ∧ (check_online_status now2
        (scan_done ok apInfo aps now1 s).state).state.probe_in_progress = true
    ∧ (check_online_status now2
        (scan_done ok apInfo aps now1 s).state).state.probe_retry_count = 0 := by
  have hb : scan_found_bssid ok apInfo aps = false := by
    have h' := hnom
    unfold scan_found at h'
    exact (Bool.or_eq_false_iff.mp h').1
  have he : scan_done ok apInfo aps now1 s =
      { state :=
          { s with
            probe_retry_count := (s.probe_retry_count + 1) % 256
            probe_in_progress := false }
        scans := 0
        linkdown_sent := true } := by
    simp [scan_done, hnom, hb, Nat.not_lt.mpr hretry]
  rw [he]
  refine ⟨rfl, rfl, rfl, rfl, rfl, ?_, ?_, ?_⟩ <;>
    simp [check_online_status, hassoc, helapsed]

/-- C9 (witness): concrete exhausted probe at time 0, next check at time
10: the down report is followed by an immediate fresh probe. -/
theorem C9_probe_restart_witness :
    (scan_done false apEmpty [] 0 probeExhausted).linkdown_sent = true
    ∧ (scan_done false apEmpty [] 0 probeExhausted).scans = 0
    ∧ (scan_done false apEmpty [] 0 probeExhausted).state.probe_in_progress = false
    ∧ (scan_done false apEmpty [] 0 probeExhausted).state.associated
        = probeExhausted.associated
    ∧ (scan_done false apEmpty [] 0 probeExhausted).state.last_inbound_seen
        = probeExhausted.last_inbound_seen
    ∧ (check_online_status 10 (scan_done false apEmpty [] 0 probeExhausted).state).scans
        = 1
    ∧ (check_online_status 10
        (scan_done false apEmpty [] 0 probeExhausted).state).state.probe_in_progress
        = true
    ∧ (check_online_status 10
        (scan_done false apEmpty [] 0 probeExhausted).state).state.probe_retry_count
        = 0 := by
  exact C9_probe_restart false apEmpty [] 0 10 probeExhausted rfl (by decide)
    (by decide) (by decide)

/-! ## Frames and the GetLinkStatus handler -/

structure Frame where
  msg_type : Nat
  payload : List Nat
deriving Repr, DecidableEq

def MSG_LINK : Nat := 1

/-- Frame emitted by `send_link_status(up)` (after the intron): type byte
`MSG_LINK`, one payload byte holding the boolean. -/
def link_status_frame (up : Bool) : Frame :=
  { msg_type := MSG_LINK, payload := [if up then 1 else 0] }

/-- Embedding of `get_link_status`: queries the driver association record
(`esp_wifi_sta_get_ap_info`, modelled as `Option ApRecord`, `some` iff the
query returns `ESP_OK`), overwrites the process-wide `associated` flag with
the outcome, and returns it. -/
def get_link_status (query : Option ApRecord) (s : LinkState) :
    Bool × LinkState :=
  (query.isSome, { s with associated := query.isSome })

/-- The `MSG_GET_LINK` branch of `read_message`:
`send_link_status(get_link_status())`. -/
def handle_get_link (query : Option ApRecord) (s : LinkState) :
    LinkState × Frame :=
  ((get_link_status query s).2, link_status_frame (get_link_status query s).1)

/-- C10: handling a GetLinkStatus query is not read-only on the link-health
state: it overwrites the process-wide `associated` flag with the result of
the driver association query (true exactly when the query returns without
error) and emits a LinkStatus frame carrying that same fresh value; no
other link-health field is modified by this handler. -/
theorem C10_get_link_status_effect (query : Option ApRecord) (s : LinkState) :
    (handle_get_link query s).1.associated = query.isSome
    ∧ (handle_get_link query s).2 = link_status_frame query.isSome
    ∧ (handle_get_link query s).1.last_inbound_seen = s.last_inbound_seen
    ∧ (handle_get_link query s).1.beacon_quirk = s.beacon_quirk
    ∧ (handle_get_link query s).1.probe_in_progress = s.probe_in_progress
    ∧ (handle_get_link query s).1.probe_retry_count = s.probe_retry_count := by
  refine ⟨rfl, rfl, rfl, rfl, rfl, rfl⟩

/-! ## Ingress pipeline: the MAC filter of `wifi_receive_cb` -/

/-- The accept test of `wifi_receive_cb`: the frame is passed on when
`(buffer[5] & 0x01) != 0`, i.e. the low bit of the SIXTH byte of the
destination address is set; otherwise all six destination bytes must equal
the station MAC. -/
def mac_filter_pass (mac frame : List Nat) : Bool :=
  if frame.getD 5 0 % 2 = 1 then true
  else (List.range 6).all (fun i => frame.getD i 0 == mac.getD i 0)

/-- Modelled from the spec's words, for comparison with `mac_filter_pass`:
a destination is broadcast/multicast iff the I/G bit — the low bit of the
FIRST destination byte — is set. -/
def spec_is_multicast (frame : List Nat) : Bool :=
  frame.getD 0 0 % 2 == 1

structure RecvEffect where
  last_inbound_seen : Nat
  enqueued : Bool
deriving Repr, DecidableEq

/-- Embedding of `wifi_receive_cb`: records the current time as
`last_inbound_seen` (before any filtering), applies the MAC filter, and on
acceptance wraps the frame and enqueues it unless allocation of the
`wifi_receive_buff` fails or the ingress queue is full. -/
def wifi_receive_cb (mac frame : List Nat) (allocOk enqOk : Bool)
    (now : Nat) : RecvEffect :=
  if mac_filter_pass mac frame then
    if allocOk && enqOk then { last_inbound_seen := now, enqueued := true }
    else { last_inbound_seen := now, enqueued := false }
  else { last_inbound_seen := now, enqueued := false }

/-- C6 (counterexample): the claim "a unicast frame whose destination
address differs from the device's station MAC is never enqueued" is false:
the frame with destination `02:00:00:00:00:01` is unicast (I/G bit of the
first byte clear) and addressed to a MAC different from the station MAC
`00:00:00:00:00:00`, yet it is enqueued, because the code tests the low bit
of destination byte 5 (here `0x01`, odd) instead of byte 0. -/
theorem C6_counterexample :
    spec_is_multicast [2, 0, 0, 0, 0, 1] = false
    ∧ [2, 0, 0, 0, 0, 1].take 6 ≠ ([0, 0, 0, 0, 0, 0] : List Nat)
    ∧ (wifi_receive_cb [0, 0, 0, 0, 0, 0] [2, 0, 0, 0, 0, 1] true true 3).enqueued
        = true := by
  decide

/-- C6 (amended): the receive callback enqueues a frame iff it passes the
code's filter, which accepts when the low bit of the SIXTH destination byte
(offset 5) is set — not the standard broadcast/multicast I/G bit of the
first byte — or when all six destination bytes equal the station MAC:
every frame passing this test is enqueued absent allocation failure or
queue-full drop, and every frame failing it is never enqueued. -/
theorem C6_mac_filter (mac frame : List Nat) (now : Nat) :
    ((frame.getD 5 0 % 2 = 1 ∨ ∀ i < 6, frame.getD i 0 = mac.getD i 0) →
      (wifi_receive_cb mac frame true true now).enqueued = true)
    ∧ (frame.getD 5 0 % 2 ≠ 1 → (∃ i, i < 6 ∧ frame.getD i 0 ≠ mac.getD i 0) →
      ∀ a q : Bool, (wifi_receive_cb mac frame a q now).enqueued = false) := by
  constructor
  · intro h
    have hpass : mac_filter_pass mac frame = true := by
      unfold mac_filter_pass
      rcases h with h | h
      · rw [if_pos h]
      · by_cases hb : frame.getD 5 0 % 2 = 1
        · rw [if_pos hb]
        · rw [if_neg hb]
          simp only [List.all_eq_true, List.mem_range, beq_iff_eq]
          exact fun i hi => h i hi
    simp [wifi_receive_cb, hpass]
  · intro hb hex a q
    have hpass : mac_filter_pass mac frame = false := by
      unfold mac_filter_pass
      rw [if_neg hb]
      obtain ⟨i, hi, hne⟩ := hex
      cases hv : (List.range 6).all (fun i => frame.getD i 0 == mac.getD i 0) with
      | false => rfl
      | true =>
        exfalso
        have hall := List.all_eq_true.mp hv i (List.mem_range.mpr hi)
        exact hne (by simpa using hall)
    simp [wifi_receive_cb, hpass]

/-- C6 (witness): a broadcast frame is enqueued for station MAC
`AA:00:00:00:00:04`; a mismatched even-fifth-byte unicast frame is not,
whatever the allocation and queue outcomes. -/
theorem C6_mac_filter_witness :
    (wifi_receive_cb [170, 0, 0, 0, 0, 4] [255, 255, 255, 255, 255, 255]
      true true 2).enqueued = true
    ∧ (wifi_receive_cb [170, 0, 0, 0, 0, 4] [2, 0, 0, 0, 0, 2]
      false true 2).enqueued = false := by
  constructor
  · exact (C6_mac_filter [170, 0, 0, 0, 0, 4] [255, 255, 255, 255, 255, 255] 2).1
      (Or.inl (by decide))
  · exact (C6_mac_filter [170, 0, 0, 0, 0, 4] [2, 0, 0, 0, 0, 2] 2).2
      (by decide) ⟨0, by decide, by decide⟩ false true

/-! ## ClientConfig handling: `read_wifi_client_message` -/

structure ClientCfgEffect where
  ssid_len : Nat
  pass_len : Nat
  ssid_arr : List Nat
  pass_arr : List Nat
  wpa2 : Bool
  consumed : Nat
  devinfo_sent : Bool
deriving Repr, DecidableEq

/-- Embedding of `read_wifi_client_message`: reads a 1-byte ssid length
(clamped to the 32-byte `wifi_config.sta.ssid` field), the ssid bytes, a
1-byte password length (clamped to the 64-byte `wifi_config.sta.password`
field), and the password bytes, into a zero-initialised configuration;
requires WPA2-PSK iff `strlen(password) != 0`, i.e. iff the first byte of
the password field is not NUL; emits a DeviceInfo frame on completion.
`consumed` counts the bytes read from the serial transport. -/
def read_wifi_client_message (stream : List Nat) : ClientCfgEffect :=
  let ssid_len := min (stream.getD 0 0) 32
  let ssid := (stream.drop 1).take ssid_len
  let pass_len := min (stream.getD (1 + ssid_len) 0) 64
  let password := (stream.drop (2 + ssid_len)).take pass_len
  let ssid_arr := ssid ++ List.replicate (32 - ssid.length) 0
  let pass_arr := password ++ List.replicate (64 - password.length) 0
  { ssid_len := ssid_len
    pass_len := pass_len
    ssid_arr := ssid_arr
    pass_arr := pass_arr
    wpa2 := pass_arr.getD 0 0 != 0
    consumed := 2 + ssid_len + pass_len
    devinfo_sent := true }

theorem getD_zero_take_append_pad (l : List Nat) (p m : Nat) (hp : 0 < p) :
    ((l.take p) ++ List.replicate m 0).getD 0 0 = l.getD 0 0 := by
  cases l with
  | nil =>
    simp only [List.take_nil, List.nil_append, List.getD_nil]
    cases m with
    | zero => simp [List.getD_nil]
    | succ k => simp [List.replicate_succ, List.getD_cons_zero]
  | cons a t =>
    cases p with
    | zero => omega
    | succ q => simp [List.take_succ_cons, List.getD_cons_zero]

theorem getD_drop_zero (l : List Nat) (n : Nat) :
    (l.drop n).getD 0 0 = l.getD n 0 := by
  rw [List.getD_eq_getElem?_getD, List.getD_eq_getElem?_getD,
    List.getElem?_drop, Nat.add_zero]

/-- C7 (counterexample): the claim "a non-empty password forces the
WPA2-personal authentication requirement" is false: a ClientConfig message
with ssid length 10 and password length 1 whose single password byte is NUL
yields open authentication, because the code decides with
`strlen(password)`, which is 0 for a NUL-leading password. -/
theorem C7_counterexample :
    (read_wifi_client_message
      [10, 48, 49, 50, 51, 52, 53, 54, 55, 56, 57, 1, 0]).pass_len = 1
    ∧ (read_wifi_client_message
      [10, 48, 49, 50, 51, 52, 53, 54, 55, 56, 57, 1, 0]).wpa2 = false := by
  decide

/-- C7 (amended): handling a ClientConfig message clamps the declared ssid
and password lengths to the maximum supported credential lengths (32 and 64
bytes), consumes exactly the two length bytes plus the clamped credential
bytes, and reconfigures the station so that WPA2-personal is required
exactly when the (clamped) password is non-empty AND its first byte is not
NUL (the C-string length `strlen(password)` is non-zero); in particular a
zero-length password yields open authentication; a DeviceInfo frame is
emitted on completion. -/
theorem C7_client_config (stream : List Nat) :
    (read_wifi_client_message stream).ssid_len = min (stream.getD 0 0) 32
    ∧ (read_wifi_client_message stream).pass_len =
        min (stream.getD (1 + min (stream.getD 0 0) 32) 0) 64
    ∧ ((read_wifi_client_message stream).wpa2 = true ↔
        (0 < (read_wifi_client_message stream).pass_len
          ∧ stream.getD (2 + min (stream.getD 0 0) 32) 0 ≠ 0))
    ∧ (read_wifi_client_message stream).consumed =
        2 + (read_wifi_client_message stream).ssid_len
          + (read_wifi_client_message stream).pass_len
    ∧ (read_wifi_client_message stream).devinfo_sent = true := by
  refine ⟨rfl, rfl, ?_, rfl, rfl⟩
  have hlen : (read_wifi_client_message stream).pass_len =
      min (stream.getD (1 + min (stream.getD 0 0) 32) 0) 64 := rfl
  have hw : (read_wifi_client_message stream).wpa2 =
      ((((stream.drop (2 + min (stream.getD 0 0) 32)).take
          (min (stream.getD (1 + min (stream.getD 0 0) 32) 0) 64)) ++
        List.replicate
          (64 - ((stream.drop (2 + min (stream.getD 0 0) 32)).take
            (min (stream.getD (1 + min (stream.getD 0 0) 32) 0) 64)).length)
          0).getD 0 0 != 0) := rfl
  rw [hw, hlen]
  by_cases hp : min (stream.getD (1 + min (stream.getD 0 0) 32) 0) 64 = 0
  · rw [hp]
    simp only [List.take_zero, List.nil_append]
    constructor
    · intro h
      exfalso
      cases hq : (64 : Nat) - ([] : List Nat).length with
      | zero => rw [hq] at h; simp [List.getD_nil] at h
      | succ k =>
        rw [hq] at h
        simp [List.replicate_succ, List.getD_cons_zero] at h
    · intro ⟨h, _⟩
      omega
  · have hp' : 0 < min (stream.getD (1 + min (stream.getD 0 0) 32) 0) 64 :=
      Nat.pos_of_ne_zero hp
    rw [getD_zero_take_append_pad _ _ _ hp', getD_drop_zero]
    constructor
    · intro h
      exact ⟨hp', by simpa using h⟩
    · intro ⟨_, h⟩
      simpa using h
